import Mathlib

/-!
Shallow embedding of the KeePass HTTP Raycast extension core.

The embedded program is the coherent pairing in the repository:
the client module that exports `KeepassAssociationError`, `hasSharedKey`,
`clearSharedKey`, `associate`, `testAssociate`, `getLogins`
(the keepass-http module imported by `src/search-keepass.tsx`), together
with the search command `src/search-keepass.tsx` itself.

Modelling conventions:
- optional TS fields become `Option` fields; JavaScript `a ?? b`
  (nullish coalescing) becomes `Option.orElse` (`<|>`), since an absent or
  undefined field is `none` and every present value, the empty string
  included, is `some`;
- `LocalStorage` is a key-value store; each client reads and writes one
  key (its `storageKey`), so client operations take the value currently
  stored at that key as an `Option String` and return the updated value;
- the network is a `Transport` function from requests to either a
  decoded response or a failure message (non-success HTTP status or a
  body that fails to decode); every client operation also returns the
  list of requests it actually sent, so "no network call" is `calls = []`;
- thrown exceptions become `Except` errors: `KeepassAssociationError`
  with its `kind` field becomes `ClientError.association`, and the plain
  `Error`s thrown at the associate-without-key site and at the transport
  site are tagged by their throw site (`protocol` and `transport`).
-/

/-- TS `Preferences`: `{ baseUrl: string }`. -/
structure Preferences where
  baseUrl : String

/-- Canonical normalized entry, TS `KeepassEntry`. -/
structure KeepassEntry where
  uuid : Option String := none
  title : String := ""
  username : Option String := none
  password : Option String := none
  url : Option String := none
  notes : Option String := none
  group : Option String := none
deriving Repr, DecidableEq

/-- Raw server entry, TS `KeepassHttpEntry`; `StringFields` is a
`Record<string, string>`, modelled as an association list. -/
structure KeepassHttpEntry where
  UUID : Option String := none
  Uuid : Option String := none
  uuid : Option String := none
  Name : Option String := none
  Title : Option String := none
  title : Option String := none
  Login : Option String := none
  Username : Option String := none
  username : Option String := none
  Password : Option String := none
  password : Option String := none
  URL : Option String := none
  Url : Option String := none
  url : Option String := none
  Notes : Option String := none
  notes : Option String := none
  Group : Option String := none
  group : Option String := none
  GroupPath : Option String := none
  StringFields : Option (List (String × String)) := none
deriving Repr, DecidableEq

/-- Raw server response, TS `KeepassHttpResponse`. -/
structure KeepassHttpResponse where
  Entries : Option (List KeepassHttpEntry) := none
  entries : Option (List KeepassHttpEntry) := none
  Key : Option String := none
  key : Option String := none
  Success : Option Bool := none
  Error : Option String := none
deriving Repr, DecidableEq

/-- TS `KeepassHttpRequest`: the three request variants sent over the wire. -/
inductive KeepassHttpRequest where
  | associate : KeepassHttpRequest
  | testAssociate (Key : String) : KeepassHttpRequest
  | getLogins (Key : String) (Search : Option String) : KeepassHttpRequest
deriving Repr, DecidableEq

/-- The `kind` field of TS `KeepassAssociationError`. -/
inductive AssociationKind where
  | missing : AssociationKind
  | invalid : AssociationKind
deriving Repr, DecidableEq

/-- Errors the client throws, tagged by throw site: `association` is the
`KeepassAssociationError` class; `config` is the plain `Error` from
`requireBaseUrl`; `protocol` is the plain `Error` thrown by `associate`
when no key is returned; `transport` is the plain `Error` from
`sendRequest` (non-ok status or decode failure). -/
inductive ClientError where
  | config (message : String) : ClientError
  | association (kind : AssociationKind) (message : String) : ClientError
  | protocol (message : String) : ClientError
  | transport (message : String) : ClientError
deriving Repr, DecidableEq

/-- The `message` property of the thrown JS `Error`. -/
def ClientError.message : ClientError → String
  | .config m => m
  | .association _ m => m
  | .protocol m => m
  | .transport m => m

/-- The server side of one HTTP POST: maps the decoded request body to
either the decoded JSON response or a failure message (non-success status
or undecodable body). -/
def Transport : Type := KeepassHttpRequest → Except String KeepassHttpResponse

/-- `mapEntry`: lookup in the `StringFields` record, `{}` when absent. -/
def sfLookup (e : KeepassHttpEntry) (k : String) : Option String :=
  (e.StringFields.getD []).lookup k

/-- `mapEntry` from the keepass-http module: normalizes a raw server entry
with each field resolved by a `??` chain (first present value wins). -/
def mapEntry (e : KeepassHttpEntry) : KeepassEntry :=
  { uuid := e.uuid <|> e.UUID <|> e.Uuid
    title := (e.title <|> e.Title <|> e.Name).getD "Untitled"
    username :=
      e.username <|> e.Username <|> e.Login <|>
        sfLookup e "UserName" <|> sfLookup e "username"
    password := e.password <|> e.Password <|> sfLookup e "Password"
    url := e.url <|> e.Url <|> e.URL
    notes := e.notes <|> e.Notes
    group := e.group <|> e.Group <|> e.GroupPath }

/-- The first `some` in a list of options; used to state the
alias-precedence contract independently of `mapEntry`'s `??` chains. -/
def firstSome {α : Type} : List (Option α) → Option α
  | [] => none
  | o :: rest =>
    match o with
    | some v => some v
    | none => firstSome rest

theorem firstSome_cons {α : Type} (o : Option α) (l : List (Option α)) :
    firstSome (o :: l) = o.orElse (fun _ => firstSome l) := by
  cases o <;> rfl

theorem firstSome_nil {α : Type} : firstSome ([] : List (Option α)) = none := rfl

theorem orElse_none_right {α : Type} (o : Option α) :
    (o.orElse fun _ => none) = o := by
  cases o <;> rfl

/-- Claim C3: For every raw server entry, `mapEntry` resolves every output
field as the first present value of its fixed alias chain (username:
`username` → `Username` → `Login` → StringFields `UserName` → StringFields
`username`); later aliases are ignored, never merged, and the title chain
falls back to `"Untitled"`. -/
theorem mapEntry_alias_precedence (e : KeepassHttpEntry) :
    (mapEntry e).username =
      firstSome [e.username, e.Username, e.Login,
        sfLookup e "UserName", sfLookup e "username"] ∧
    (mapEntry e).uuid = firstSome [e.uuid, e.UUID, e.Uuid] ∧
    (mapEntry e).title = (firstSome [e.title, e.Title, e.Name]).getD "Untitled" ∧
    (mapEntry e).password =
      firstSome [e.password, e.Password, sfLookup e "Password"] ∧
    (mapEntry e).url = firstSome [e.url, e.Url, e.URL] ∧
    (mapEntry e).notes = firstSome [e.notes, e.Notes] ∧
    (mapEntry e).group = firstSome [e.group, e.Group, e.GroupPath] := by
  simp only [firstSome_cons, firstSome_nil, orElse_none_right]
  exact ⟨rfl, rfl, rfl, rfl, rfl, rfl, rfl⟩

/-- JavaScript `String.prototype.trim`: strips leading and trailing
whitespace (modelled on the character list so that it evaluates inside
the kernel). -/
def jsTrim (s : String) : String :=
  ⟨((s.data.dropWhile Char.isWhitespace).reverse.dropWhile
    Char.isWhitespace).reverse⟩

/-- `STORAGE_KEY_PREFIX` from the keepass-http module. -/
def STORAGE_KEY_PREFIX : String := "keepass-http-shared-key"

/-- `requireBaseUrl`: trims the preference value and throws when empty. -/
def requireBaseUrl (p : Preferences) : Except ClientError String :=
  let baseUrl := jsTrim p.baseUrl
  if baseUrl = "" then
    .error (.config "Missing KeePass HTTP server URL.")
  else
    .ok baseUrl

/-- The per-client `storageKey` computed by `createKeepassHttpClient`:
the prefix, a colon, and the (trimmed) base URL. -/
def storageKey (baseUrl : String) : String :=
  STORAGE_KEY_PREFIX ++ ":" ++ baseUrl

/-- `LocalStorage` as an association list from storage keys to values;
`getItem` returns the value at a key, if any. -/
def getItem (storage : List (String × String)) (k : String) : Option String :=
  storage.lookup k

/-- `LocalStorage.setItem`: replaces any binding of the key. -/
def setItem (storage : List (String × String)) (k v : String) :
    List (String × String) :=
  (k, v) :: storage.filter (fun p => p.1 != k)

/-- `getSharedKey`: the value stored at the client's storage key, with an
empty or whitespace-only stored value treated as absent. -/
def getSharedKey (store : Option String) : Option String :=
  match store with
  | some k => if jsTrim k ≠ "" then some k else none
  | none => none

/-- `setSharedKey`: overwrites the stored value. -/
def setSharedKey (_ : Option String) (k : String) : Option String :=
  some k

/-- `clearSharedKey`: removes the stored value. -/
def clearSharedKey (_ : Option String) : Option String :=
  none

/-- `hasSharedKey`: whether a usable secret is stored. -/
def hasSharedKey (store : Option String) : Bool :=
  (getSharedKey store).isSome

/-- Outcome of one client operation: the thrown error or returned value,
the stored value at the client's storage key afterwards, and the requests
sent over the transport, in order. -/
structure ClientResult (α : Type) where
  result : Except ClientError α
  store : Option String
  calls : List KeepassHttpRequest

/-- `requireSharedKey`: returns the stored secret or throws
`KeepassAssociationError("missing", ...)` without any network call. -/
def requireSharedKey (store : Option String) : Except ClientError String :=
  match getSharedKey store with
  | some k => .ok k
  | none => .error (.association .missing "KeePass HTTP association required.")

/-- `associate`: sends `{RequestType: "associate"}`; reads the key from
`response.Key ?? response.key`; `if (!key)` (absent or empty) throws the
no-shared-key `Error` leaving the store untouched; otherwise persists the
key and returns it. -/
def associate (τ : Transport) (store : Option String) : ClientResult String :=
  let req := KeepassHttpRequest.associate
  match τ req with
  | .error m => ⟨.error (.transport m), store, [req]⟩
  | .ok resp =>
    match resp.Key.orElse (fun _ => resp.key) with
    | none =>
      ⟨.error (.protocol "KeePass HTTP associate did not return a shared key."),
        store, [req]⟩
    | some k =>
      if k = "" then
        ⟨.error (.protocol "KeePass HTTP associate did not return a shared key."),
          store, [req]⟩
      else
        ⟨.ok k, setSharedKey store k, [req]⟩

/-- `testAssociate`: requires a stored secret (throwing the missing-kind
association error with no network call when absent), sends
`{RequestType: "test-associate", Key}`, and throws the invalid-kind
association error when the response carries `Success === false`. -/
def testAssociate (τ : Transport) (store : Option String) : ClientResult Unit :=
  match requireSharedKey store with
  | .error e => ⟨.error e, store, []⟩
  | .ok k =>
    let req := KeepassHttpRequest.testAssociate k
    match τ req with
    | .error m => ⟨.error (.transport m), store, [req]⟩
    | .ok resp =>
      if resp.Success = some false then
        ⟨.error (.association .invalid
            (resp.Error.getD "KeePass HTTP association test failed.")),
          store, [req]⟩
      else
        ⟨.ok (), store, [req]⟩

/-- The `Search` field of a get-logins payload: the trimmed query when
nonempty, omitted otherwise. -/
def searchArg (query : String) : Option String :=
  if jsTrim query ≠ "" then some (jsTrim query) else none

/-- `getLogins`: requires a stored secret, sends
`{RequestType: "get-logins", Key, Search?}`, takes the entry list from
`response.entries ?? response.Entries ?? []` and normalizes each entry. -/
def getLogins (τ : Transport) (store : Option String) (query : String) :
    ClientResult (List KeepassEntry) :=
  match requireSharedKey store with
  | .error e => ⟨.error e, store, []⟩
  | .ok k =>
    let req := KeepassHttpRequest.getLogins k (searchArg query)
    match τ req with
    | .error m => ⟨.error (.transport m), store, [req]⟩
    | .ok resp =>
      ⟨.ok (((resp.entries.orElse (fun _ => resp.Entries)).getD []).map mapEntry),
        store, [req]⟩

/-- React state of the `Command` component in `src/search-keepass.tsx`,
plus the stored value at the client's storage key. `needsAssociation`
mirrors the `boolean | null` state (`none` is the initial `null`). -/
structure OrchestratorState where
  searchText : String
  entries : List KeepassEntry
  isLoading : Bool
  needsAssociation : Option Bool
  store : Option String

/-- Outcome of running one effect body: the component state and store
afterwards, the requests sent, and the failure-toast message shown, if
any. -/
structure EffectResult where
  state : OrchestratorState
  calls : List KeepassHttpRequest
  toast : Option String

/-- The `checkAssociation` effect: reads `hasSharedKey` and sets
`needsAssociation` to its negation (the storage read cannot fail in this
model, so the catch branch is unreachable). -/
def checkAssociation (st : OrchestratorState) : OrchestratorState :=
  { st with needsAssociation := some (!hasSharedKey st.store) }

/-- The `runTest` effect: calls `testAssociate`; on success clears the
needs-association flag; on a `KeepassAssociationError` it clears the
stored secret when the kind is `invalid` and sets the flag; any other
error is shown as a failure toast. -/
def runTest (τ : Transport) (st : OrchestratorState) : EffectResult :=
  let r := testAssociate τ st.store
  match r.result with
  | .ok _ =>
    ⟨{ st with needsAssociation := some false, store := r.store }, r.calls, none⟩
  | .error e =>
    match e with
    | .association kind _ =>
      let store :=
        match kind with
        | .invalid => clearSharedKey r.store
        | .missing => r.store
      ⟨{ st with needsAssociation := some true, store := store }, r.calls, none⟩
    | _ =>
      ⟨{ st with store := r.store }, r.calls, some e.message⟩

/-- The body of the debounced search timer callback: when
`needsAssociation !== false` it clears the entries and stops without any
network call; otherwise it runs `getLogins` on the current search text,
emitting the results on success, and on any thrown error showing a
failure toast and clearing the entries. -/
def dispatchSearch (τ : Transport) (st : OrchestratorState) : EffectResult :=
  if st.needsAssociation ≠ some false then
    ⟨{ st with entries := [], isLoading := false }, [], none⟩
  else
    let r := getLogins τ st.store st.searchText
    match r.result with
    | .ok results =>
      ⟨{ st with entries := results, isLoading := false, store := r.store },
        r.calls, none⟩
    | .error e =>
      ⟨{ st with entries := [], isLoading := false, store := r.store },
        r.calls, some e.message⟩

/-- `SEARCH_DEBOUNCE_MS` from `src/search-keepass.tsx`. -/
def SEARCH_DEBOUNCE_MS : Nat := 250

/-- Debouncer state: the pending timer (fire time and the text its
callback captured) and the texts whose callbacks have fired, in order.
Each fired text stands for one dispatched retrieval. -/
structure DebState where
  pending : Option (Nat × String)
  fired : List String
deriving Repr, DecidableEq

/-- Initial debouncer state: no timer scheduled, nothing fired. -/
def debInit : DebState := ⟨none, []⟩

/-- One run of the search effect at time `t` with new text: the pending
timer fires first if its time has passed, `clearTimeout` discards it
otherwise, and a fresh timer is scheduled for `t + SEARCH_DEBOUNCE_MS`. -/
def debStep (st : DebState) (t : Nat) (text : String) : DebState :=
  let cleared : DebState :=
    match st.pending with
    | some (ft, s) =>
      if ft ≤ t then { pending := none, fired := st.fired ++ [s] }
      else { pending := none, fired := st.fired }
    | none => st
  { pending := some (t + SEARCH_DEBOUNCE_MS, text), fired := cleared.fired }

/-- Process a sequence of query updates `(time, text)` in order. -/
def debRun (st : DebState) : List (Nat × String) → DebState
  | [] => st
  | (t, s) :: rest => debRun (debStep st t s) rest

/-- All texts that fire once time passes every scheduled deadline: the
already-fired texts followed by the pending one, if any. -/
def debFlush (st : DebState) : List String :=
  match st.pending with
  | some (_, s) => st.fired ++ [s]
  | none => st.fired

/-- The updates arrive in order and each one lands strictly within the
debounce quiet period of its predecessor. -/
def withinDebounce : List (Nat × String) → Bool
  | [] => true
  | [_] => true
  | (t, _) :: (t2, s2) :: rest =>
    t ≤ t2 && t2 < t + SEARCH_DEBOUNCE_MS && withinDebounce ((t2, s2) :: rest)

theorem debRun_pending (us : List (Nat × String)) :
    ∀ t s fired, withinDebounce ((t, s) :: us) = true →
      debRun ⟨some (t + SEARCH_DEBOUNCE_MS, s), fired⟩ us =
        ⟨some ((((t, s) :: us).getLastD (t, s)).1 + SEARCH_DEBOUNCE_MS,
          (((t, s) :: us).getLastD (t, s)).2), fired⟩ := by
  induction us with
  | nil => intro t s fired _; rfl
  | cons u rest ih =>
    intro t s fired h
    obtain ⟨t2, s2⟩ := u
    simp only [withinDebounce, Bool.and_eq_true, decide_eq_true_eq] at h
    obtain ⟨⟨_, hlt⟩, hrest⟩ := h
    have hnot : ¬ (t + SEARCH_DEBOUNCE_MS ≤ t2) := Nat.not_le.mpr hlt
    have h2 := ih t2 s2 fired hrest
    simp only [List.getLastD_cons] at h2
    simp only [debRun, debStep, List.getLastD_cons]
    rw [if_neg hnot]
    exact h2

/-- A transport whose server always answers with an empty JSON object. -/
def okTransport : Transport := fun _ => .ok {}

/-- A transport that always fails with a non-success HTTP status. -/
def failTransport : Transport := fun _ => .error "Server responded with 500"

/-- A transport that always reports `Success: false`. -/
def invalidTransport : Transport := fun _ => .ok { Success := some false }

/-- Claim C1: With no usable stored secret (absent, empty, or
whitespace-only), `testAssociate` fails with the missing-kind association
error, sends zero requests over the transport, and leaves the store
unchanged. -/
theorem testAssociate_missing_no_network (τ : Transport) (store : Option String)
    (h : getSharedKey store = none) :
    (testAssociate τ store).result =
      .error (.association .missing "KeePass HTTP association required.") ∧
    (testAssociate τ store).calls = [] ∧
    (testAssociate τ store).store = store := by
  simp [testAssociate, requireSharedKey, h]

/-- `testAssociate` on a whitespace-only stored secret: fails as missing
with zero transport calls. -/
theorem testAssociate_missing_no_network_witness :
    (testAssociate okTransport (some "   ")).result =
      .error (.association .missing "KeePass HTTP association required.") ∧
    (testAssociate okTransport (some "   ")).calls = [] ∧
    (testAssociate okTransport (some "   ")).store = some "   " :=
  testAssociate_missing_no_network okTransport (some "   ") (by decide)

theorem lookup_cons_pair (k2 a b : String) (rest : List (String × String)) :
    List.lookup k2 ((a, b) :: rest) =
      if k2 == a then some b else List.lookup k2 rest := by
  by_cases hk : (k2 == a) = true
  · simp [List.lookup, hk]
  · have hkf : (k2 == a) = false := Bool.eq_false_iff.mpr hk
    simp [List.lookup, hkf]

theorem lookup_filter_ne (k1 k2 : String) (h : k2 ≠ k1) :
    ∀ storage : List (String × String),
      (storage.filter (fun p => p.1 != k1)).lookup k2 = storage.lookup k2 := by
  intro storage
  induction storage with
  | nil => rfl
  | cons p rest ih =>
    obtain ⟨a, b⟩ := p
    by_cases ha : a = k1
    · subst ha
      have hk : (k2 == a) = false := beq_false_of_ne h
      have hdrop : ((a, b) :: rest).filter (fun p => p.1 != a) =
          rest.filter (fun p => p.1 != a) := by
        simp [List.filter_cons]
      rw [hdrop, lookup_cons_pair, if_neg (by simp [hk]), ih]
    · have hkeep : ((a, b) :: rest).filter (fun p => p.1 != k1) =
          (a, b) :: rest.filter (fun p => p.1 != k1) := by
        simp [List.filter_cons, ha]
      rw [hkeep, lookup_cons_pair, lookup_cons_pair, ih]

/-- Claim C2: For every two client instances successfully configured with
distinct base URLs, the derived storage keys are distinct, and writing a
secret under one client's storage key never changes what the other
client's key reads. -/
theorem storageKey_distinct (p q : Preferences) (bp bq : String)
    (_hp : requireBaseUrl p = .ok bp) (_hq : requireBaseUrl q = .ok bq)
    (hne : bp ≠ bq) :
    storageKey bp ≠ storageKey bq ∧
    (∀ storage v,
      getItem (setItem storage (storageKey bp) v) (storageKey bq) =
        getItem storage (storageKey bq)) := by
  have hkey : storageKey bp ≠ storageKey bq := by
    intro hcontra
    apply hne
    have hd : (storageKey bp).data = (storageKey bq).data :=
      congrArg String.data hcontra
    simp only [storageKey, String.data_append, List.append_assoc] at hd
    exact String.ext (List.append_cancel_left (List.append_cancel_left hd))
  refine ⟨hkey, ?_⟩
  intro storage v
  have hne2 : storageKey bq ≠ storageKey bp := fun hcontra => hkey hcontra.symm
  simp only [getItem, setItem]
  rw [lookup_cons_pair, if_neg (by simp [beq_false_of_ne hne2])]
  exact lookup_filter_ne (storageKey bp) (storageKey bq) hne2 storage

/-- Two clients at the spec's example port and a neighbouring port get
distinct storage keys, and a write under one is invisible to the other. -/
theorem storageKey_distinct_witness :
    storageKey "http://localhost:19455" ≠ storageKey "http://localhost:19456" ∧
    getItem (setItem [] (storageKey "http://localhost:19455") "secret")
      (storageKey "http://localhost:19456") = none := by
  have h := storageKey_distinct ⟨"http://localhost:19455"⟩
    ⟨"http://localhost:19456"⟩ "http://localhost:19455"
    "http://localhost:19456" rfl rfl (by decide)
  exact ⟨h.1, h.2 [] "secret"⟩

/-- Claim C4: While the association state is not Associated
(`needsAssociation` is not `some false`), the debounced search body sends
zero requests (in particular, zero get-logins calls), emits an empty
result list, and leaves the non-Associated signal in place. -/
theorem dispatchSearch_not_associated (τ : Transport) (st : OrchestratorState)
    (h : st.needsAssociation ≠ some false) :
    (dispatchSearch τ st).calls = [] ∧
    (dispatchSearch τ st).state.entries = [] ∧
    (dispatchSearch τ st).state.needsAssociation = st.needsAssociation ∧
    (dispatchSearch τ st).state.needsAssociation ≠ some false := by
  simp only [dispatchSearch, if_pos h]
  exact ⟨trivial, trivial, trivial, h⟩

/-- The spec's end-to-end state: no secret stored, query `"gmail"`. -/
def noKeyState : OrchestratorState :=
  { searchText := "gmail", entries := [], isLoading := false,
    needsAssociation := none, store := none }

/-- End-to-end: no secret stored, query `"gmail"`: `checkAssociation`
reports association required, and the dispatch issues zero calls with an
empty result list. -/
theorem dispatchSearch_not_associated_witness :
    (checkAssociation noKeyState).needsAssociation = some true ∧
    (dispatchSearch okTransport (checkAssociation noKeyState)).calls = [] ∧
    (dispatchSearch okTransport (checkAssociation noKeyState)).state.entries
      = [] := by
  have h := dispatchSearch_not_associated okTransport
    (checkAssociation noKeyState) (by decide)
  exact ⟨rfl, h.1, h.2.1⟩

/-- Claim C5: When the associate response carries neither `Key` nor `key`,
`associate` fails with the protocol error and leaves the stored secret
(present or absent) unchanged. -/
theorem associate_no_key_leaves_store (τ : Transport) (store : Option String)
    (resp : KeepassHttpResponse)
    (hτ : τ KeepassHttpRequest.associate = .ok resp)
    (hK : resp.Key = none) (hk : resp.key = none) :
    (associate τ store).result =
      .error (.protocol "KeePass HTTP associate did not return a shared key.") ∧
    (associate τ store).store = store := by
  simp [associate, hτ, hK, hk, Option.orElse]

/-- `associate` against a server answering `{}` with a secret already
stored: protocol error, store untouched. -/
theorem associate_no_key_leaves_store_witness :
    (associate okTransport (some "oldsecret")).result =
      .error (.protocol "KeePass HTTP associate did not return a shared key.") ∧
    (associate okTransport (some "oldsecret")).store = some "oldsecret" :=
  associate_no_key_leaves_store okTransport (some "oldsecret") {} rfl rfl rfl

/-- Claim C6: For every burst of query updates in which each update arrives
strictly within the 250-unit quiet period of its predecessor, no timer
fires during the burst, and once the burst settles exactly one retrieval
fires, carrying the text of the last update. -/
theorem debounce_at_most_one_dispatch (t : Nat) (s : String)
    (us : List (Nat × String))
    (h : withinDebounce ((t, s) :: us) = true) :
    (debRun debInit ((t, s) :: us)).fired = [] ∧
    debFlush (debRun debInit ((t, s) :: us)) =
      [(((t, s) :: us).getLastD (t, s)).2] := by
  have h1 : debRun debInit ((t, s) :: us) =
      ⟨some ((((t, s) :: us).getLastD (t, s)).1 + SEARCH_DEBOUNCE_MS,
        (((t, s) :: us).getLastD (t, s)).2), []⟩ :=
    debRun_pending us t s [] h
  rw [h1]
  exact ⟨rfl, rfl⟩

/-- Three keystrokes 100 units apart: nothing fires during the burst and
exactly one retrieval fires afterwards, for the last text `"gmail"`. -/
theorem debounce_at_most_one_dispatch_witness :
    withinDebounce [(0, "g"), (100, "gm"), (200, "gmail")] = true ∧
    (debRun debInit [(0, "g"), (100, "gm"), (200, "gmail")]).fired = [] ∧
    debFlush (debRun debInit [(0, "g"), (100, "gm"), (200, "gmail")])
      = ["gmail"] := by
  have h := debounce_at_most_one_dispatch 0 "g" [(100, "gm"), (200, "gmail")]
    (by decide)
  exact ⟨by decide, h.1, h.2⟩

/-- Claim C7: With a secret stored and the server answering `test-associate`
with `Success: false`, `testAssociate` fails with the invalid-kind
association error, and the `runTest` effect applies the program's
clear-on-invalid policy: the stored secret is cleared and association is
flagged as required. -/
theorem testAssociate_invalid_clears (τ : Transport) (st : OrchestratorState)
    (k : String) (resp : KeepassHttpResponse)
    (hk : getSharedKey st.store = some k)
    (hτ : τ (KeepassHttpRequest.testAssociate k) = .ok resp)
    (hS : resp.Success = some false) :
    (testAssociate τ st.store).result =
      .error (.association .invalid
        (resp.Error.getD "KeePass HTTP association test failed.")) ∧
    (runTest τ st).state.store = none ∧
    (runTest τ st).state.needsAssociation = some true := by
  have hres : testAssociate τ st.store =
      ⟨.error (.association .invalid
          (resp.Error.getD "KeePass HTTP association test failed.")),
        st.store, [KeepassHttpRequest.testAssociate k]⟩ := by
    simp [testAssociate, requireSharedKey, hk, hτ, hS]
  refine ⟨by rw [hres], ?_, ?_⟩ <;> simp [runTest, hres, clearSharedKey]

/-- The orchestrator state of a client with a stored secret. -/
def storedState : OrchestratorState :=
  { searchText := "gmail", entries := [], isLoading := false,
    needsAssociation := none, store := some "secret" }

/-- A stored secret rejected by the server: invalid-kind failure, secret
cleared, association flagged as required. -/
theorem testAssociate_invalid_clears_witness :
    (testAssociate invalidTransport (some "secret")).result =
      .error (.association .invalid "KeePass HTTP association test failed.") ∧
    (runTest invalidTransport storedState).state.store = none ∧
    (runTest invalidTransport storedState).state.needsAssociation
      = some true := by
  have h := testAssociate_invalid_clears invalidTransport storedState
    "secret" { Success := some false } (by decide) rfl rfl
  exact h

/-- Claim C9: When association is confirmed but the retrieval fails at any
stage (the thrown error is arbitrary), the debounced search body reports
the error message to the caller and clears the emitted result list. -/
theorem dispatchSearch_failure_clears (τ : Transport) (st : OrchestratorState)
    (e : ClientError)
    (hA : st.needsAssociation = some false)
    (hE : (getLogins τ st.store st.searchText).result = .error e) :
    (dispatchSearch τ st).state.entries = [] ∧
    (dispatchSearch τ st).toast = some e.message := by
  simp [dispatchSearch, hA, hE]

/-- The orchestrator state right after a confirmed association. -/
def associatedState : OrchestratorState :=
  { searchText := "gmail", entries := [mapEntry { title := some "Old" }],
    isLoading := false, needsAssociation := some false,
    store := some "secret" }

/-- A retrieval hitting a non-success HTTP status: the previous result
list is cleared and the error is surfaced. -/
theorem dispatchSearch_failure_clears_witness :
    (dispatchSearch failTransport associatedState).state.entries = [] ∧
    (dispatchSearch failTransport associatedState).toast =
      some "Server responded with 500" := by
  have h := dispatchSearch_failure_clears failTransport associatedState
    (.transport "Server responded with 500") rfl rfl
  exact h

/-- Claim C10: On a successful get-logins response, the entry list is taken
from lowercase `entries` when present (even when `Entries` is also
present), else from `Entries`, else defaults to the empty list rather
than failing; each taken entry is normalized. -/
theorem getLogins_entries_selection (τ : Transport) (store : Option String)
    (query k : String) (resp : KeepassHttpResponse)
    (hk : getSharedKey store = some k)
    (hτ : τ (KeepassHttpRequest.getLogins k (searchArg query)) = .ok resp) :
    (∀ l, resp.entries = some l →
      (getLogins τ store query).result = .ok (l.map mapEntry)) ∧
    (resp.entries = none → ∀ l, resp.Entries = some l →
      (getLogins τ store query).result = .ok (l.map mapEntry)) ∧
    (resp.entries = none → resp.Entries = none →
      (getLogins τ store query).result = .ok []) := by
  refine ⟨?_, ?_, ?_⟩
  · intro l hl
    simp [getLogins, requireSharedKey, hk, hτ, hl, Option.orElse]
  · intro h0 l hl
    simp [getLogins, requireSharedKey, hk, hτ, h0, hl, Option.orElse]
  · intro h0 h1
    simp [getLogins, requireSharedKey, hk, hτ, h0, h1, Option.orElse]

/-- A response carrying both casings with different contents. -/
def bothCasingsResponse : KeepassHttpResponse :=
  { entries := some [{ title := some "lower" }],
    Entries := some [{ Title := some "upper" }] }

/-- A transport answering get-logins with both `entries` and `Entries`. -/
def bothCasingsTransport : Transport := fun _ => .ok bothCasingsResponse

/-- When both casings are present, the lowercase `entries` list wins. -/
theorem getLogins_entries_selection_witness :
    (getLogins bothCasingsTransport (some "secret") "gmail").result =
      .ok [mapEntry { title := some "lower" }] := by
  have h := getLogins_entries_selection bothCasingsTransport (some "secret")
    "gmail" "secret" bothCasingsResponse (by decide) rfl
  exact h.1 [{ title := some "lower" }] rfl

/-- A raw entry whose lowercase `title` field is present but empty: JS
`??` treats the empty string as present, so no fallback applies. -/
def emptyTitleEntry : KeepassHttpEntry := { title := some "" }

/-- Claim C8 counterexample: A raw entry with `title: ""` has a title-like
field set, yet `mapEntry` returns the empty title, so normalize does not
always produce a non-empty title. -/
theorem mapEntry_empty_title_counterexample :
    emptyTitleEntry.title = some "" ∧ (mapEntry emptyTitleEntry).title = "" :=
  ⟨rfl, rfl⟩

/-- Claim C8 as amended: The title is resolved by the chain lowercase
`title` → `Title` → `Name` → literal `"Untitled"`; when no title-like
field is set the result is exactly `"Untitled"`, and the result is
non-empty whenever the first present title-like value is non-empty. -/
theorem mapEntry_title_fallback (e : KeepassHttpEntry) :
    (mapEntry e).title = (firstSome [e.title, e.Title, e.Name]).getD "Untitled" ∧
    (e.title = none → e.Title = none → e.Name = none →
      (mapEntry e).title = "Untitled") ∧
    ((∀ v, firstSome [e.title, e.Title, e.Name] = some v → v ≠ "") →
      (mapEntry e).title ≠ "") := by
  have hfs : (mapEntry e).title =
      (firstSome [e.title, e.Title, e.Name]).getD "Untitled" := by
    simp only [firstSome_cons, firstSome_nil, orElse_none_right]
    rfl
  refine ⟨hfs, ?_, ?_⟩
  · intro h1 h2 h3
    rw [hfs, h1, h2, h3]
    rfl
  · intro hv
    rw [hfs]
    cases hcase : firstSome [e.title, e.Title, e.Name] with
    | none => decide
    | some v => simpa using hv v hcase

/-- An entry with no title-like field: the title is the literal fallback
and in particular non-empty. -/
theorem mapEntry_title_fallback_witness :
    (mapEntry ({} : KeepassHttpEntry)).title = "Untitled" ∧
    (mapEntry ({} : KeepassHttpEntry)).title ≠ "" := by
  have h := mapEntry_title_fallback ({} : KeepassHttpEntry)
  exact ⟨h.2.1 rfl rfl rfl,
    h.2.2 (fun v hv => by simp [firstSome] at hv)⟩
